import Mathlib

/-
Verification of the flat-file blog store (server.js, public/main.js, and the
like-client variants) against its specification. The JavaScript source is
shallowly embedded: posts are records with optional fields exactly where the
duck-typed JSON records may lack them; request handlers become pure functions
from the collection (plus the request data and the current clock value) to an
Except result; the promise-chain write serializer becomes a sequential fold,
which is faithful because every task body uses only synchronous fs calls and
the chain starts task k+1 only once task k has settled.
-/

namespace Blog

/-- Comment record appended by the comments route: author, content and a
millisecond timestamp. -/
structure BlogComment where
  author : String
  content : String
  createdAt : Int
  deriving Repr, DecidableEq

/-- Post record as stored in posts.json. Fields that a record read from disk
may lack (the server reads raw JSON without normalizing in server.js) are
Option-typed; the JavaScript reads them through the falsy-default idiom
(likes or 0, createdAt or 0, Array.isArray(comments) ? comments : []). -/
structure Post where
  id : String
  title : String
  content : String
  author : String
  likes : Option Int
  createdAt : Option Int
  updatedAt : Option Int
  comments : Option (List BlogComment)
  deriving Repr, DecidableEq

/-- Minimal JSON value model, used only for the load path (readPosts), where
the raw parse result is inspected before any post structure is assumed. -/
inductive Json where
  | null : Json
  | bool : Bool → Json
  | num : Int → Json
  | str : String → Json
  | arr : List Json → Json
  | obj : List (String × Json) → Json

/-- Observable state of the backing file when readPosts runs: the file may be
missing (ensurePostsFile then creates it holding the two characters [ ]), the
read may throw (unreadable), JSON.parse may throw (invalid syntax), or parsing
succeeds with some JSON value. -/
inductive FileState where
  | missing : FileState
  | unreadable : FileState
  | invalid : FileState
  | parsed : Json → FileState

/-- Lookup of a key in a JSON object field list, first occurrence, mirroring
property access on the parsed object. -/
def Json.getField : Json → String → Option Json
  | .obj fields, k => (fields.find? (fun kv => kv.1 == k)).map (·.2)
  | _, _ => none

/-- Embedding of readPosts (server.js lines 43 to 54): ensure the file exists
(a missing file is created holding an empty array, so the subsequent read
parses to the empty array); then try to read and parse; a read error or a
parse error is caught and yields the empty collection; a parsed array is
returned as is; a parsed object whose posts field is an array yields that
array; anything else yields the empty collection. -/
def readPosts : FileState → List Json
  | .missing => []
  | .unreadable => []
  | .invalid => []
  | .parsed j =>
    match j with
    | .arr xs => xs
    | j2 =>
      match j2.getField "posts" with
      | some (.arr xs) => xs
      | _ => []

/-- Direction of a like request: the HTTP method POST means plus one and
DELETE means minus one (server.js line 216). -/
def likeDelta (isPost : Bool) : Int := if isPost then 1 else -1

/-- Embedding of the like and unlike route (server.js lines 205 to 228, and
the identical route of the embedded server in public/main.js lines 1150 to
1165): find the post by exact string id match and answer 404 when absent;
otherwise the new count is max 0 of the stored likes (read with default 0,
the Number(likes or 0) idiom) plus the delta, updatedAt is set to the clock
value, the mutated collection is persisted, and the response carries the id
and the new count. The inner match on the index is not reachable in the none
branch because findIdx? always yields an index in range. -/
def setLike (posts : List Post) (id : String) (isPost : Bool) (now : Int) :
    Except Unit (List Post × Int) :=
  match posts.findIdx? (fun p => p.id == id) with
  | none => Except.error ()
  | some i =>
    match posts[i]? with
    | none => Except.error ()
    | some p =>
      let newLikes := max 0 (p.likes.getD 0 + likeDelta isPost)
      Except.ok
        (posts.set i { p with likes := some newLikes, updatedAt := some now }, newLikes)

/-- Body of a create request; a field is none when absent from the JSON body
or not a string (the JS guards each field with a typeof check). -/
structure CreateBody where
  title : Option String
  content : Option String
  author : Option String
  deriving Repr, DecidableEq

/-- Semantics of the JS String trim method: strip whitespace from both ends.
Implemented over the character list (structural recursion) so that theorems
can be evaluated on concrete strings. -/
def jsTrim (s : String) : String :=
  String.mk (((s.data.dropWhile Char.isWhitespace).reverse.dropWhile
    Char.isWhitespace).reverse)

/-- Author stored by the create route of server.js (line 133): the supplied
value whenever it is a string, Anonymous only when absent or not a string. -/
def createAuthor (author : Option String) : String := author.getD "Anonymous"

/-- Author stored by the create route of the embedded server in
public/main.js (line 1080), the expression (body.author and
String(body.author).trim()) or Anonymous: an absent field and the empty
string are falsy and give Anonymous; otherwise the author is trimmed and a
blank result again gives Anonymous. -/
def createAuthorEmbedded (author : Option String) : String :=
  match author with
  | none => "Anonymous"
  | some a =>
    if a == "" then "Anonymous"
    else if jsTrim a == "" then "Anonymous" else jsTrim a

/-- Embedding of the create route of server.js (lines 123 to 147): a missing,
non-string or blank-after-trimming title is a 400; otherwise a fresh post is
appended holding the trimmed title, the content (empty when absent or not a
string), the author per createAuthor, zero likes, both timestamps at the
clock value and no comments. -/
def createPost (posts : List Post) (body : CreateBody) (freshId : String) (now : Int) :
    Except Unit (List Post) :=
  match body.title with
  | none => Except.error ()
  | some t =>
    if jsTrim t == "" then Except.error ()
    else
      let fresh : Post :=
        { id := freshId
          title := jsTrim t
          content := body.content.getD ""
          author := createAuthor body.author
          likes := some 0
          createdAt := some now
          updatedAt := some now
          comments := some [] }
      Except.ok (posts ++ [fresh])

/-- Body of an update request; none covers both an absent field and a
non-string value, and a null body makes all three none. -/
structure UpdateBody where
  title : Option String
  content : Option String
  author : Option String
  deriving Repr, DecidableEq

/-- Per-post effect of the update route (server.js lines 163 to 166): each of
title, content and author is overwritten only when supplied, and updatedAt is
set to the clock value; every other field is untouched. -/
def applyUpdate (body : UpdateBody) (now : Int) (p : Post) : Post :=
  { p with title := body.title.getD p.title,
           content := body.content.getD p.content,
           author := body.author.getD p.author,
           updatedAt := some now }

/-- Embedding of the update route (server.js lines 150 to 176): find the post
by exact string id match and answer 404 when absent; otherwise apply the
partial update in place and persist. -/
def updatePost (posts : List Post) (id : String) (body : UpdateBody) (now : Int) :
    Except Unit (List Post) :=
  match posts.findIdx? (fun p => p.id == id) with
  | none => Except.error ()
  | some i =>
    match posts[i]? with
    | none => Except.error ()
    | some p => Except.ok (posts.set i (applyUpdate body now p))

/-- Body of an add-comment request; none covers an absent field, a non-string
value and a null body. -/
structure CommentBody where
  author : Option String
  content : Option String
  deriving Repr, DecidableEq

/-- Comment record built by the comments route (server.js lines 244 to 248):
author is the trimmed supplied author when nonblank and Anonymous otherwise;
content is the supplied string, or the empty string when absent or not a
string — there is no validation rejecting empty content; createdAt is the
clock value. -/
def mkComment (body : CommentBody) (now : Int) : BlogComment :=
  { author := (match body.author with
               | some a => if jsTrim a == "" then "Anonymous" else jsTrim a
               | none => "Anonymous"),
    content := body.content.getD "",
    createdAt := now }

/-- Embedding of the comments route (server.js lines 230 to 261): find the
post by exact string id match and answer 404 when absent; otherwise append
the comment built by mkComment to the comments array (created empty when the
stored field is not an array), set updatedAt and persist. -/
def addComment (posts : List Post) (id : String) (body : CommentBody) (now : Int) :
    Except Unit (List Post) :=
  match posts.findIdx? (fun p => p.id == id) with
  | none => Except.error ()
  | some i =>
    match posts[i]? with
    | none => Except.error ()
    | some p =>
      Except.ok (posts.set i
        { p with comments := some (p.comments.getD [] ++ [mkComment body now]),
                 updatedAt := some now })

/-- Embedding of the list route (server.js lines 112 to 120): a copy of the
collection sorted by the comparator (b.createdAt or 0) minus (a.createdAt or
0), that is descending by createdAt with a missing createdAt read as 0. -/
def listPosts (posts : List Post) : List Post :=
  posts.mergeSort (fun a b => decide (b.createdAt.getD 0 ≤ a.createdAt.getD 0))

/-- A queued write task: it takes the current store state and either produces
a new state or throws. In the source every task body uses only synchronous
filesystem calls (readFileSync, writeFileSync, renameSync), so a started task
runs to completion without yielding, and a task that throws before the atomic
rename leaves the persisted state unchanged. -/
def QTask (σ ε : Type) := σ → Except ε σ

/-- Embedding of the write serializer (server.js lines 63 to 68). The chain
run = pending.then(task, task) starts each task once its predecessor has
settled, whether fulfilled or rejected, and pending = run.catch of the empty
handler keeps the chain alive after a rejection; so the queue behaves as a
sequential fold: each task sees the state left by the last successful task,
and every submitted task produces exactly one settled outcome. The returned
pair is the final state and the per-task outcomes in submission order. -/
def runQueue {σ ε : Type} : List (QTask σ ε) → σ → σ × List (Except ε σ)
  | [], s => (s, [])
  | t :: ts, s =>
    match t s with
    | Except.ok s2 =>
      let rest := runQueue ts s2
      (rest.1, Except.ok s2 :: rest.2)
    | Except.error e =>
      let rest := runQueue ts s
      (rest.1, Except.error e :: rest.2)

/-- Client-side state for one post as the like handler sees it: the
per-browser liked flag (the localStorage entry) and the displayed count (the
numeric value rendered in the count element). -/
structure ClientLikeState where
  liked : Bool
  displayed : Int
  deriving Repr, DecidableEq

/-- Embedding of the optimistic like toggle (handleLikeClick in
src/unnamed/part_000 lines 38 to 82, and the like branch of onPostsClick in
public/main.js lines 410 to 435). The handler captures the pre-toggle flag
and count, applies the optimistic flip and clamped count adjustment, then
issues the request: resp is some likes when the fetch resolved with an ok
status, none on a network error or a non-2xx status (the handler throws in
both cases). On success the displayed count is replaced by the authoritative
server count; on failure the captured pre-toggle count and flag are written
back. -/
def likeClick (s : ClientLikeState) (resp : Option Int) : ClientLikeState :=
  let wasLiked := s.liked
  let count := s.displayed
  let optimistic : ClientLikeState :=
    { liked := !wasLiked, displayed := max 0 (count + (if wasLiked then -1 else 1)) }
  match resp with
  | some likes => { optimistic with displayed := likes }
  | none => { liked := wasLiked, displayed := count }

/-- HTTP method of an api request to a posts subresource. -/
inductive Method where
  | get | post | put | delete
  deriving Repr, DecidableEq

/-- Action the server takes for a request to /api/posts/:id or
/api/posts/:id/:tail. -/
inductive ApiAction where
  | update | remove | like (isPost : Bool) | comment | respond404
  deriving Repr, DecidableEq

/-- Embedding of the id-route dispatch of the embedded server
(public/main.js lines 1110 to 1215; server.js lines 150 to 268 behaves
identically): PUT with no tail updates, DELETE with no tail deletes, POST or
DELETE on the like tail runs the like operation, POST on the comments tail
appends a comment; any other combination falls through to the 404 response
at the end of the api block. No branch tests for a dislike tail. -/
def dispatchIdRoute (m : Method) (tail : Option String) : ApiAction :=
  if m = Method.put ∧ tail = none then ApiAction.update
  else if m = Method.delete ∧ tail = none then ApiAction.remove
  else if tail = some "like" ∧ (m = Method.post ∨ m = Method.delete) then
    ApiAction.like (m = Method.post)
  else if tail = some "comments" ∧ m = Method.post then ApiAction.comment
  else ApiAction.respond404

/-- A sample post used to instantiate proved theorems at concrete inputs. -/
def samplePost : Post :=
  { id := "a", title := "T", content := "C", author := "Ann",
    likes := some 2, createdAt := some 1, updatedAt := some 1,
    comments := some [] }

/-- C3: for every state of the backing file in which no JSON value is
obtained — missing (the file is then initialized to an empty array before the
read), unreadable (the read throws and the catch returns the empty
collection) or syntactically invalid (the parse throws and the catch returns
the empty collection) — readPosts returns the empty collection; being a total
function, it raises nothing. -/
theorem readPosts_fails_open :
    readPosts FileState.missing = [] ∧
    readPosts FileState.unreadable = [] ∧
    readPosts FileState.invalid = [] :=
  ⟨rfl, rfl, rfl⟩

/-- C2: the write serializer runs tasks strictly in submission order — the
tasks of a second batch see exactly the state left by the whole first batch
and their outcomes follow the first batch outcomes (so no two tasks
interleave their read-modify-write sections); every submitted task produces
an outcome (none is skipped); and a task that throws still lets every later
task run, the queue continuing from the state the failing task left. -/
theorem runQueue_fifo_and_no_poison :
    (∀ (σ ε : Type) (ts us : List (QTask σ ε)) (s : σ),
      runQueue (ts ++ us) s =
        ((runQueue us (runQueue ts s).1).1,
          (runQueue ts s).2 ++ (runQueue us (runQueue ts s).1).2)) ∧
    (∀ (σ ε : Type) (ts : List (QTask σ ε)) (s : σ),
      (runQueue ts s).2.length = ts.length) ∧
    (∀ (σ ε : Type) (e : ε) (ts : List (QTask σ ε)) (s : σ),
      runQueue ((fun _ => Except.error e) :: ts) s =
        ((runQueue ts s).1, Except.error e :: (runQueue ts s).2)) := by
  refine ⟨fun σ ε ts us s => ?_, fun σ ε ts s => ?_, fun σ ε e ts s => ?_⟩
  · induction ts generalizing s with
    | nil => simp [runQueue]
    | cons t ts ih =>
      simp only [List.cons_append, runQueue]
      cases t s with
      | ok s2 => simp [runQueue, ih s2]
      | error e => simp [runQueue, ih s]
  · induction ts generalizing s with
    | nil => simp [runQueue]
    | cons t ts ih =>
      simp only [runQueue]
      cases t s with
      | ok s2 => simp [runQueue, ih s2]
      | error e => simp [runQueue, ih s]
  · simp [runQueue]

/-- C8: when the server request fails (network error or non-2xx status), the
optimistic like toggle restores both the per-browser liked flag and the
displayed count to exactly their pre-toggle values: the handler run with a
failed response is the identity on the client state. -/
theorem likeClick_rollback (s : ClientLikeState) : likeClick s none = s := by
  cases s
  rfl

/-- C10: the list route returns a permutation of the stored collection (the
full set of posts) sorted by createdAt in descending order, a missing
createdAt being read as 0. -/
theorem listPosts_sorted_desc (posts : List Post) :
    (listPosts posts).Perm posts ∧
    List.Pairwise (fun a b => b.createdAt.getD 0 ≤ a.createdAt.getD 0)
      (listPosts posts) := by
  constructor
  · exact List.mergeSort_perm posts _
  · have h := @List.sorted_mergeSort Post
      (fun a b : Post => decide (b.createdAt.getD 0 ≤ a.createdAt.getD 0))
      (fun a b c hab hbc => by
        simp only [decide_eq_true_eq] at *
        exact le_trans hbc hab)
      (fun a b => by
        simp only [Bool.or_eq_true, decide_eq_true_eq]
        exact (le_total (b.createdAt.getD 0) (a.createdAt.getD 0)))
      posts
    exact h.imp (fun hab => by simpa using hab)

/-- C1: the like and unlike operation answers 404 when no post has the given
id; otherwise the persisted post keeps every other field, its likes become
max 0 (old likes + direction) with direction plus one for POST and minus one
for DELETE, its updatedAt is set to the clock value, the response carries the
new count, and the new count is never negative. -/
theorem setLike_spec (posts : List Post) (id : String) (isPost : Bool) (now : Int) :
    ((∀ p ∈ posts, ¬ p.id = id) → setLike posts id isPost now = Except.error ()) ∧
    (∀ i p, posts.findIdx? (fun q => q.id == id) = some i → posts[i]? = some p →
      setLike posts id isPost now =
        Except.ok
          (posts.set i
            { p with likes := some (max 0 (p.likes.getD 0 + likeDelta isPost)),
                     updatedAt := some now },
            max 0 (p.likes.getD 0 + likeDelta isPost)) ∧
      0 ≤ max 0 (p.likes.getD 0 + likeDelta isPost)) := by
  constructor
  · intro h
    have hnone : posts.findIdx? (fun q => q.id == id) = none := by
      rw [List.findIdx?_eq_none_iff]
      intro x hx
      simpa using h x hx
    unfold setLike
    rw [hnone]
  · intro i p hfind hget
    unfold setLike
    rw [hfind]
    dsimp only
    rw [hget]
    exact ⟨rfl, le_max_left 0 _⟩

/-- C1 witness: liking the sample post (2 stored likes) yields 3 likes and
sets updatedAt to the clock value 7. -/
theorem setLike_spec_witness :
    setLike [samplePost] "a" true 7 =
      Except.ok ([{ samplePost with likes := some 3, updatedAt := some 7 }], 3) := by
  have h := (setLike_spec [samplePost] "a" true 7).2 0 samplePost (by rfl) (by rfl)
  exact h.1.trans (congrArg Except.ok (by decide))

/-- C7: the update operation answers 404 when no post has the given id; when
the id is found, exactly the supplied fields among title, content and author
are overwritten, updatedAt is set to the clock value, the id, createdAt,
likes and comments of the post are unchanged, and every post at another
index, as well as the collection length, is unchanged. -/
theorem updatePost_frame (posts : List Post) (id : String) (body : UpdateBody) (now : Int) :
    ((∀ p ∈ posts, ¬ p.id = id) → updatePost posts id body now = Except.error ()) ∧
    (∀ i p, posts.findIdx? (fun q => q.id == id) = some i → posts[i]? = some p →
      updatePost posts id body now = Except.ok (posts.set i (applyUpdate body now p)) ∧
      (applyUpdate body now p).id = p.id ∧
      (applyUpdate body now p).createdAt = p.createdAt ∧
      (applyUpdate body now p).likes = p.likes ∧
      (applyUpdate body now p).comments = p.comments ∧
      (applyUpdate body now p).title = body.title.getD p.title ∧
      (applyUpdate body now p).content = body.content.getD p.content ∧
      (applyUpdate body now p).author = body.author.getD p.author ∧
      (applyUpdate body now p).updatedAt = some now ∧
      (posts.set i (applyUpdate body now p)).length = posts.length ∧
      (∀ j : Nat, j ≠ i → (posts.set i (applyUpdate body now p))[j]? = posts[j]?)) := by
  constructor
  · intro h
    have hnone : posts.findIdx? (fun q => q.id == id) = none := by
      rw [List.findIdx?_eq_none_iff]
      intro x hx
      simpa using h x hx
    unfold updatePost
    rw [hnone]
  · intro i p hfind hget
    unfold updatePost
    rw [hfind]
    dsimp only
    rw [hget]
    refine ⟨rfl, rfl, rfl, rfl, rfl, rfl, rfl, rfl, rfl, List.length_set posts i _, ?_⟩
    intro j hj
    exact List.getElem?_set_ne (Ne.symm hj)

/-- C7 witness: updating only the title of the sample post changes the title
and updatedAt and nothing else. -/
theorem updatePost_frame_witness :
    updatePost [samplePost] "a" { title := some "New", content := none, author := none } 9 =
      Except.ok [{ samplePost with title := "New", updatedAt := some 9 }] := by
  have h := (updatePost_frame [samplePost] "a"
    { title := some "New", content := none, author := none } 9).2 0 samplePost
    (by rfl) (by rfl)
  exact h.1.trans (congrArg Except.ok (by decide))

/-- C4 counterexample: adding a comment whose content is the empty string —
empty after trimming — to an existing post does not fail with a
ValidationError: the operation succeeds and appends a comment with empty
content, refuting the claimed 400 on empty content. -/
theorem addComment_empty_content_accepted :
    addComment [samplePost] "a" { author := none, content := some "" } 9 =
      Except.ok [{ samplePost with
        comments := some [{ author := "Anonymous", content := "", createdAt := 9 }],
        updatedAt := some 9 }] := by
  rfl

/-- C4 amended: the comments route answers 404 when no post has the given id;
when the id is found it performs no validation of the content — the appended
comment carries the supplied content (the empty string when absent or not a
string), the author trimmed or Anonymous when blank, and createdAt equal to
the clock value, and the post updatedAt is set. -/
theorem addComment_spec (posts : List Post) (id : String) (body : CommentBody) (now : Int) :
    ((∀ p ∈ posts, ¬ p.id = id) → addComment posts id body now = Except.error ()) ∧
    (∀ i p, posts.findIdx? (fun q => q.id == id) = some i → posts[i]? = some p →
      addComment posts id body now =
        Except.ok (posts.set i
          { p with comments := some (p.comments.getD [] ++ [mkComment body now]),
                   updatedAt := some now }) ∧
      (mkComment body now).createdAt = now ∧
      (mkComment body now).content = body.content.getD "") := by
  constructor
  · intro h
    have hnone : posts.findIdx? (fun q => q.id == id) = none := by
      rw [List.findIdx?_eq_none_iff]
      intro x hx
      simpa using h x hx
    unfold addComment
    rw [hnone]
  · intro i p hfind hget
    unfold addComment
    rw [hfind]
    dsimp only
    rw [hget]
    exact ⟨rfl, rfl, rfl⟩

/-- C4 amended witness: adding a comment with content c and a blank author to
the sample post appends exactly that comment with author Anonymous. -/
theorem addComment_spec_witness :
    addComment [samplePost] "a" { author := some " ", content := some "c" } 9 =
      Except.ok [{ samplePost with
        comments := some [{ author := "Anonymous", content := "c", createdAt := 9 }],
        updatedAt := some 9 }] := by
  have h := (addComment_spec [samplePost] "a"
    { author := some " ", content := some "c" } 9).2 0 samplePost (by rfl) (by rfl)
  exact h.1.trans (congrArg Except.ok (by decide))

/-- C5 counterexample: in server.js a supplied blank author — a single space,
empty after trimming — is stored as given and not replaced by Anonymous,
refuting the claimed default on blank authors. -/
theorem createAuthor_blank_stored_as_given :
    createPost [] { title := some "T", content := none, author := some " " } "i1" 3 =
      Except.ok [{ id := "i1", title := "T", content := "", author := " ",
                   likes := some 0, createdAt := some 3, updatedAt := some 3,
                   comments := some [] }] ∧
    (" " : String) ≠ "Anonymous" := by
  constructor
  · rfl
  · decide

/-- C5 amended: in server.js the stored author is the supplied value whenever
the field holds a string — blank strings included — and Anonymous exactly
when the field is absent or not a string; in the embedded server of
public/main.js the stored author is the trimmed supplied value when nonblank
after trimming and Anonymous when the field is absent or blank. -/
theorem createAuthor_variants (a : String) :
    createAuthor none = "Anonymous" ∧
    createAuthor (some a) = a ∧
    createAuthorEmbedded none = "Anonymous" ∧
    createAuthorEmbedded (some a) =
      (if jsTrim a = "" then "Anonymous" else jsTrim a) := by
  refine ⟨rfl, rfl, rfl, ?_⟩
  unfold createAuthorEmbedded
  by_cases h : a = ""
  · subst h
    decide
  · by_cases h2 : jsTrim a = "" <;> simp [h, h2]

/-- C9 counterexample input: a valid create body whose title carries a
leading space (nonempty after trimming). -/
def titleProbe : CreateBody := { title := some " A", content := some "B", author := none }

/-- C9 counterexample stored post: the post actually created from titleProbe,
whose title is the trimmed string. -/
def titleProbePost : Post :=
  { id := "i1", title := "A", content := "B", author := "Anonymous",
    likes := some 0, createdAt := some 5, updatedAt := some 5, comments := some [] }

/-- C9 counterexample: creating from titleProbe and then listing yields
exactly one post and its title A differs from the supplied title, which has a
leading space — the title is stored trimmed, so the round trip is not exact
on the title even though the input is valid and the title is neither
server-assigned nor defaulted. -/
theorem create_list_title_trimmed :
    createPost [] titleProbe "i1" 5 = Except.ok [titleProbePost] ∧
    listPosts [titleProbePost] = [titleProbePost] ∧
    titleProbePost.title ≠ " A" := by
  refine ⟨by rfl, by simp [listPosts, List.mergeSort_singleton], by decide⟩

/-- C9 amended: for every create body whose title is a string that is
nonempty after trimming, create succeeds and a subsequent list contains a
post whose title is the supplied title trimmed, whose content and author
match the input with the documented defaults for absent fields, and whose
likes are zero and comments empty. -/
theorem createList_roundtrip (posts : List Post) (body : CreateBody)
    (freshId : String) (now : Int) (t : String)
    (ht : body.title = some t) (hne : ¬ jsTrim t = "") :
    ∃ posts2, createPost posts body freshId now = Except.ok posts2 ∧
      ∃ p, p ∈ listPosts posts2 ∧ p.title = jsTrim t ∧
        p.content = body.content.getD "" ∧ p.author = createAuthor body.author ∧
        p.likes = some 0 ∧ p.createdAt = some now ∧ p.comments = some [] := by
  unfold createPost
  rw [ht]
  dsimp only
  rw [if_neg (by simpa using hne)]
  refine ⟨_, rfl,
    { id := freshId, title := jsTrim t, content := body.content.getD "",
      author := createAuthor body.author, likes := some 0, createdAt := some now,
      updatedAt := some now, comments := some [] },
    ?_, rfl, rfl, rfl, rfl, rfl, rfl⟩
  rw [listPosts, List.mem_mergeSort]
  exact List.mem_append_right posts (List.mem_singleton.mpr rfl)

/-- C9 amended witness: creating from a body with title Hi preceded by a
space and then listing yields a post with the trimmed title, the supplied
content, the default author, zero likes and no comments. -/
theorem createList_roundtrip_witness :
    ∃ posts2,
      createPost [] { title := some " Hi", content := some "B", author := none } "i2" 4 =
        Except.ok posts2 ∧
      ∃ p, p ∈ listPosts posts2 ∧ p.title = jsTrim " Hi" ∧
        p.content = (some "B" : Option String).getD "" ∧
        p.author = createAuthor none ∧ p.likes = some 0 ∧
        p.createdAt = some 4 ∧ p.comments = some [] :=
  createList_roundtrip [] { title := some " Hi", content := some "B", author := none }
    "i2" 4 " Hi" rfl (by decide)

/-- C6: the server has no dislike route — a POST or a DELETE request to
/api/posts/:id/dislike falls through every branch of the id-route dispatch
and reaches the 404 response, even when the id is present in the collection,
although the client issues exactly these requests and the specification
documents a 200 response carrying the updated dislikes counter. -/
theorem dispatch_dislike_is_404 :
    dispatchIdRoute Method.post (some "dislike") = ApiAction.respond404 ∧
    dispatchIdRoute Method.delete (some "dislike") = ApiAction.respond404 := by
  constructor <;> rfl

end Blog
